import Mathlib

/-
Shallow embedding of the two CPU cores of the chips repository
(src/chips/m6502.h and src/chips/z80.h) and proofs of the spec claims.

Conventions of the embedding:
- machine integers become Nat; where the C code truncates (uint8_t stores,
  uint16_t increments) the embedding takes the value mod 256 or mod 65536
  at exactly the places the C types force a truncation;
- the C `int` intermediate results of the subtract-family ALU helpers can be
  negative; they are represented by their 16-bit two complement bit pattern
  (value + 65536 taken mod 65536), which agrees with the C `int` on every bit
  the flag macros consume (bits 0 through 8) whenever the operand is a byte;
- the tick callback, stored as a function pointer in the C structs, is passed
  as an explicit function argument and the CPU structs keep only data fields;
- every z80 machine-cycle function additionally threads an explicit counter
  of tick-callback invocations (the second component of the `z80 Nat`
  product), mirroring the C `_TICK()` macro which both invokes the callback
  and increments `cpu->ticks`.
-/

/-! ## Generic bit-algebra helper lemmas -/

/-- Bitwise and distributes over bitwise or on Nat (from the right). -/
theorem lor_and_distrib (x y m : Nat) : (x ||| y) &&& m = (x &&& m) ||| (y &&& m) := by
  refine Nat.eq_of_testBit_eq fun i => ?_
  simp only [Nat.testBit_and, Nat.testBit_or]
  cases x.testBit i <;> cases y.testBit i <;> cases m.testBit i <;> rfl

/-- Reassociating a double mask so literal masks can be folded. -/
theorem and_mask_assoc (x m n : Nat) : (x &&& m) &&& n = x &&& (m &&& n) :=
  Nat.land_assoc x m n

/-- Masking with an all-ones mask of width w is reduction mod 2 to the w. -/
theorem and_ones_eq_mod (x w : Nat) : x &&& (2 ^ w - 1) = x % 2 ^ w :=
  Nat.and_pow_two_sub_one_eq_mod x w

/-! ## m6502.h: pin constants, pin packing macros, CPU state, reset -/

/-- Control pin M6502_RW, bit 24 (src/chips/m6502.h); hex value of the
source 1-shifted-left-24 expression. -/
def M6502_RW : Nat := 0x1000000

/-- Control pin M6502_IRQ, bit 25. -/
def M6502_IRQ : Nat := 0x2000000

/-- Control pin M6502_NMI, bit 26. -/
def M6502_NMI : Nat := 0x4000000

/-- Status flag constants of m6502.h, written as the hex values of the
source 1-shifted-left-n expressions. -/
def M6502_CF : Nat := 0x01

def M6502_ZF : Nat := 0x02

def M6502_IF : Nat := 0x04

def M6502_DF : Nat := 0x08

def M6502_BF : Nat := 0x10

def M6502_XF : Nat := 0x20

def M6502_VF : Nat := 0x40

def M6502_NF : Nat := 0x80

/-- Macro M6502_GET_ADDR: extract the 16-bit address bus from the pins. -/
def M6502_GET_ADDR (p : Nat) : Nat := p &&& 0xFFFF

/-- Macro M6502_GET_DATA: extract the 8-bit data bus from the pins. -/
def M6502_GET_DATA (p : Nat) : Nat := (p &&& 0xFF0000) >>> 16

/-- Macro M6502_MAKE_PINS: pack control bits, address and data into one pin mask. -/
def M6502_MAKE_PINS (ctrl addr data : Nat) : Nat :=
  ctrl ||| ((data <<< 16) &&& 0xFF0000) ||| (addr &&& 0xFFFF)

/-- The m6502_t CPU state (the tick function pointer is passed separately). -/
structure m6502_t where
  PINS : Nat
  A : Nat
  X : Nat
  Y : Nat
  S : Nat
  P : Nat
  PC : Nat
  irq_taken : Bool
  break_mask : Nat

/-- m6502_init: zeroed state, then PINS = RW, P = IF|XF, S = 0xFD. -/
def m6502_init : m6502_t :=
  { PINS := M6502_RW, A := 0, X := 0, Y := 0, S := 0xFD,
    P := M6502_IF ||| M6502_XF, PC := 0, irq_taken := false, break_mask := 0 }

/-- m6502_reset: force the post-reset register values and load PC from the
reset vector at 0xFFFC/0xFFFD through two tick-callback invocations. -/
def m6502_reset (tick : Nat → Nat) (c : m6502_t) : m6502_t :=
  let l := M6502_GET_DATA (tick (M6502_MAKE_PINS M6502_RW 0xFFFC 0x00))
  let h := M6502_GET_DATA (tick (M6502_MAKE_PINS M6502_RW 0xFFFD 0x00))
  { c with irq_taken := false, P := M6502_IF ||| M6502_XF, S := 0xFD,
           PINS := M6502_RW, PC := (h <<< 8) ||| l }

/-! ## z80.h: flags, pins, state, machine cycles, ALU, decoder -/

/-- Z80 status flag constants (src/chips/z80.h), as hex values of the
source 1-shifted-left-n expressions. -/
def Z80_CF : Nat := 0x01

def Z80_NF : Nat := 0x02

def Z80_VF : Nat := 0x04

def Z80_PF : Nat := Z80_VF

def Z80_XF : Nat := 0x08

def Z80_HF : Nat := 0x10

def Z80_YF : Nat := 0x20

def Z80_ZF : Nat := 0x40

def Z80_SF : Nat := 0x80

/-- Z80 pin constants. -/
def Z80_M1 : Nat := 0x01

def Z80_MREQ : Nat := 0x02

def Z80_IORQ : Nat := 0x04

def Z80_RD : Nat := 0x08

def Z80_WR : Nat := 0x10

def Z80_RFSH : Nat := 0x20

def Z80_HALT : Nat := 0x40

def Z80_WAIT : Nat := 0x80

def Z80_INT : Nat := 0x100

def Z80_NMI : Nat := 0x200

def Z80_RESET : Nat := 0x400

def Z80_BUSREQ : Nat := 0x800

def Z80_BUSACK : Nat := 0x1000

/-- The z80 CPU state.  The anonymous register union of the C struct is
modelled by the eight byte cells in their memory order C,B,E,D,L,H,A,F
(little-endian pairs BC, DE, HL, FA) as named fields, with the aliased
views `z80.r8`, `z80.setR8`, `z80.HL`, `z80.IR` defined below as accessor
functions.  The tick function pointer and context are passed separately. -/
structure z80 where
  C : Nat
  B : Nat
  E : Nat
  D : Nat
  L : Nat
  H : Nat
  A : Nat
  F : Nat
  BC_ : Nat
  DE_ : Nat
  HL_ : Nat
  AF_ : Nat
  WZ : Nat
  WZ_ : Nat
  IX : Nat
  IY : Nat
  R : Nat
  I : Nat
  SP : Nat
  PC : Nat
  CTRL : Nat
  ADDR : Nat
  DATA : Nat
  im : Nat
  imm1 : Bool
  imm2 : Bool
  ticks : Nat

/-- The r8 union view: r8[0..7] = C,B,E,D,L,H,A,F (access with index flipped
in bit 0, as the source comment says). -/
def z80.r8 (cpu : z80) : Nat → Nat
  | 0 => cpu.C
  | 1 => cpu.B
  | 2 => cpu.E
  | 3 => cpu.D
  | 4 => cpu.L
  | 5 => cpu.H
  | 6 => cpu.A
  | 7 => cpu.F
  | _ => 0

/-- Store into the r8 union view (indices as in `z80.r8`). -/
def z80.setR8 (cpu : z80) (i v : Nat) : z80 :=
  match i with
  | 0 => { cpu with C := v }
  | 1 => { cpu with B := v }
  | 2 => { cpu with E := v }
  | 3 => { cpu with D := v }
  | 4 => { cpu with L := v }
  | 5 => { cpu with H := v }
  | 6 => { cpu with A := v }
  | 7 => { cpu with F := v }
  | _ => cpu

/-- The 16-bit HL register pair view (H high byte, L low byte). -/
def z80.HL (cpu : z80) : Nat := (cpu.H <<< 8) ||| cpu.L

/-- The 16-bit IR register pair view (I high byte, R low byte). -/
def z80.IR (cpu : z80) : Nat := (cpu.I <<< 8) ||| cpu.R

/-- z80_init: the C memset-to-zero state (tick and context live outside). -/
def z80_init : z80 :=
  { C := 0, B := 0, E := 0, D := 0, L := 0, H := 0, A := 0, F := 0,
    BC_ := 0, DE_ := 0, HL_ := 0, AF_ := 0, WZ := 0, WZ_ := 0,
    IX := 0, IY := 0, R := 0, I := 0, SP := 0, PC := 0,
    CTRL := 0, ADDR := 0, DATA := 0, im := 0,
    imm1 := false, imm2 := false, ticks := 0 }

/-- The _OFF macro: clear control pins (CTRL is a uint16, so the C
complement of the mask acts as the 16-bit complement). -/
def ctrlOff (c m : Nat) : Nat := c &&& (0xFFFF ^^^ m)

/-- The _TICK macro: invoke the callback, then increment cpu->ticks.  The
second component counts the callback invocations made so far. -/
def _TICK (t : z80 → z80) (sn : z80 × Nat) : z80 × Nat :=
  let s := t sn.1
  ({ s with ticks := s.ticks + 1 }, sn.2 + 1)

/-- _z80_fetch: the 4 T-state opcode fetch machine cycle (M1), including the
refresh address on the bus and the 7-bit refresh counter update. -/
def _z80_fetch (t : z80 → z80) (sn : z80 × Nat) : z80 × Nat :=
  -- T1: M1 on, PC on the address bus, PC incremented (uint16)
  let s := sn.1
  let sn := _TICK t ({ s with CTRL := s.CTRL ||| Z80_M1,
                              ADDR := s.PC, PC := (s.PC + 1) % 65536 }, sn.2)
  -- T2: MREQ|RD on, tick, then update R inside its low 7 bits
  let s := sn.1
  let sn := _TICK t ({ s with CTRL := s.CTRL ||| (Z80_MREQ ||| Z80_RD) }, sn.2)
  let s := sn.1
  let sn := ({ s with R := (s.R &&& 0x80) ||| ((s.R + 1) &&& 0x7F) }, sn.2)
  -- T3: M1|MREQ|RD off, RFSH on, refresh address IR on the bus
  let s := sn.1
  let sn := _TICK t ({ s with CTRL := ctrlOff s.CTRL (Z80_M1 ||| Z80_MREQ ||| Z80_RD)
                                      ||| Z80_RFSH,
                              ADDR := s.IR }, sn.2)
  -- T4: MREQ on, tick, then RFSH|MREQ off; the opcode is in DATA
  let s := sn.1
  let sn := _TICK t ({ s with CTRL := s.CTRL ||| Z80_MREQ }, sn.2)
  let s := sn.1
  ({ s with CTRL := ctrlOff s.CTRL (Z80_RFSH ||| Z80_MREQ) }, sn.2)

/-- _z80_read: 3 T-state memory read cycle at the given address. -/
def _z80_read (t : z80 → z80) (addr : Nat) (sn : z80 × Nat) : z80 × Nat :=
  let s := sn.1
  let sn := _TICK t ({ s with ADDR := addr }, sn.2)
  let s := sn.1
  let sn := _TICK t ({ s with CTRL := s.CTRL ||| (Z80_MREQ ||| Z80_RD) }, sn.2)
  let s := sn.1
  _TICK t ({ s with CTRL := ctrlOff s.CTRL (Z80_MREQ ||| Z80_RD) }, sn.2)

/-- _z80_write: 3 T-state memory write cycle of the given byte. -/
def _z80_write (t : z80 → z80) (addr data : Nat) (sn : z80 × Nat) : z80 × Nat :=
  let s := sn.1
  let sn := _TICK t ({ s with ADDR := addr }, sn.2)
  let s := sn.1
  let sn := _TICK t ({ s with CTRL := s.CTRL ||| (Z80_MREQ ||| Z80_WR),
                              DATA := data }, sn.2)
  let s := sn.1
  _TICK t ({ s with CTRL := ctrlOff s.CTRL (Z80_MREQ ||| Z80_WR) }, sn.2)

/-- _z80_halt: an empty stub in the source (marked FIXME there). -/
def _z80_halt (cpu : z80) : z80 := cpu

/-! ### ALU flag macros -/

/-- Macro _SZ: sign flag of the result byte, or the zero flag if it is 0. -/
def _SZ (val : Nat) : Nat :=
  if val &&& 0xFF ≠ 0 then val &&& Z80_SF else Z80_ZF

/-- Macro _SZYXCH: sign/zero, the undocumented Y/X bits of the result,
carry out of bit 8, and half carry. -/
def _SZYXCH (acc val res : Nat) : Nat :=
  _SZ res ||| (res &&& (Z80_YF ||| Z80_XF)) ||| ((res >>> 8) &&& Z80_CF)
    ||| ((acc ^^^ val ^^^ res) &&& Z80_HF)

/-- Macro _ADD_FLAGS. -/
def _ADD_FLAGS (acc val res : Nat) : Nat :=
  _SZYXCH acc val res ||| ((((val ^^^ acc ^^^ 0x80) &&& (val ^^^ res)) >>> 5) &&& Z80_VF)

/-- Macro _SUB_FLAGS. -/
def _SUB_FLAGS (acc val res : Nat) : Nat :=
  Z80_NF ||| _SZYXCH acc val res
    ||| ((((val ^^^ acc) &&& (res ^^^ acc)) >>> 5) &&& Z80_VF)

/-- Macro _CP_FLAGS: like _SUB_FLAGS, except that the undocumented Y/X flag
bits are taken from val instead of from res. -/
def _CP_FLAGS (acc val res : Nat) : Nat :=
  Z80_NF ||| (_SZ res ||| (val &&& (Z80_YF ||| Z80_XF)) ||| ((res >>> 8) &&& Z80_CF)
    ||| ((acc ^^^ val ^^^ res) &&& Z80_HF))
    ||| ((((val ^^^ acc) &&& (res ^^^ acc)) >>> 5) &&& Z80_VF)

/-- _z80_add8: res is the C int sum (never negative). -/
def _z80_add8 (cpu : z80) (val : Nat) : z80 :=
  let res := cpu.A + val
  { cpu with F := _ADD_FLAGS cpu.A val res, A := res % 256 }

/-- _z80_adc8: add with the current carry flag. -/
def _z80_adc8 (cpu : z80) (val : Nat) : z80 :=
  let res := cpu.A + val + (cpu.F &&& Z80_CF)
  { cpu with F := _ADD_FLAGS cpu.A val res, A := res % 256 }

/-- _z80_sub8: the C int difference A - val can be negative; res is its
16-bit two complement bit pattern. -/
def _z80_sub8 (cpu : z80) (val : Nat) : z80 :=
  let res := (cpu.A + 65536 - val) % 65536
  { cpu with F := _SUB_FLAGS cpu.A val res, A := res % 256 }

/-- _z80_sbc8: subtract with the current carry flag. -/
def _z80_sbc8 (cpu : z80) (val : Nat) : z80 :=
  let res := (cpu.A + 65536 - val - (cpu.F &&& Z80_CF)) % 65536
  { cpu with F := _SUB_FLAGS cpu.A val res, A := res % 256 }

/-- _z80_cp8: compare; flags from _CP_FLAGS, the accumulator is not written. -/
def _z80_cp8 (cpu : z80) (val : Nat) : z80 :=
  let res := (cpu.A + 65536 - val) % 65536
  { cpu with F := _CP_FLAGS cpu.A val res }

/-- _z80_neg8: A := 0 - A via _z80_sub8. -/
def _z80_neg8 (cpu : z80) : z80 :=
  _z80_sub8 { cpu with A := 0 } cpu.A

/-! ### Instruction decoder and execution driver -/

/-- _z80_op: decode and execute the opcode currently in DATA.  The bit
groups x,y,z,p,q follow the source; the branch order (x==1, x==2, x==0,
x==3) mirrors the source if/else chain.  Branches that are empty in the
source (block 2, most of block 0, block 3) leave the state unchanged. -/
def _z80_op (t : z80 → z80) (sn : z80 × Nat) : z80 × Nat :=
  let s := sn.1
  let op := s.DATA
  let x := op >>> 6
  let y := (op >>> 3) &&& 7
  let z := op &&& 7
  if x = 1 then
    -- block 1: 8-bit loads and HALT
    if y = 6 then
      if z = 6 then
        -- special case: the LD whose two register fields both select memory is HALT
        (_z80_halt s, sn.2)
      else
        -- LD (HL),r
        _z80_write t s.HL (s.r8 (z ^^^ 1)) (s, sn.2)
    else if z = 6 then
      -- LD r,(HL)
      let sn2 := _z80_read t s.HL (s, sn.2)
      (z80.setR8 sn2.1 (y ^^^ 1) sn2.1.DATA, sn2.2)
    else
      -- LD r,r
      (z80.setR8 s (y ^^^ 1) (s.r8 (z ^^^ 1)), sn.2)
  else if x = 2 then
    -- block 2: 8-bit ALU instructions (empty in the source)
    (s, sn.2)
  else if x = 0 then
    -- block 0: misc instructions; only the LD r,n case has a body in the source
    if z = 6 then
      if y = 6 then
        -- LD (HL),n (empty in the source)
        (s, sn.2)
      else
        -- LD r,n : read the immediate at PC (with the PC post-increment of
        -- the _READ(cpu->PC++) argument), store it in r8[y^1]
        let a := s.PC
        let sn2 := _z80_read t a ({ s with PC := (s.PC + 1) % 65536 }, sn.2)
        (z80.setR8 sn2.1 (y ^^^ 1) sn2.1.DATA, sn2.2)
    else
      -- all other block-0 cases are empty comments in the source
      (s, sn.2)
  else
    -- block 3 (x == 3): empty in the source
    (s, sn.2)

/-- z80_step: reset cpu->ticks, fetch, dispatch; the C function returns
cpu->ticks.  The first component is the mutated cpu (so the C return value
is its ticks field) and the second counts the tick-callback invocations. -/
def z80_step (t : z80 → z80) (s : z80) : z80 × Nat :=
  _z80_op t (_z80_fetch t ({ s with ticks := 0 }, 0))

/-- z80_run: the source body is a FIXME stub that returns 0 and leaves the
cpu untouched.  The second component is the C return value. -/
def z80_run (_t : z80 → z80) (s : z80) (_tcks : Nat) : z80 × Nat := (s, 0)

/-- z80_on: set control pins. -/
def z80_on (cpu : z80) (pins : Nat) : z80 := { cpu with CTRL := cpu.CTRL ||| pins }

/-- z80_off: clear control pins. -/
def z80_off (cpu : z80) (pins : Nat) : z80 := { cpu with CTRL := ctrlOff cpu.CTRL pins }

/-- z80_any: test if any of the given control pins is active. -/
def z80_any (cpu : z80) (pins : Nat) : Bool := cpu.CTRL &&& pins != 0

/-- z80_all: test if all of the given control pins are active. -/
def z80_all (cpu : z80) (pins : Nat) : Bool := cpu.CTRL &&& pins == pins

/-- A tick callback that obeys the bus contract of the spec: within one
cycle it may only place a byte on the data pins (answering a read) and must
return the rest of the pin/register state unmodified.  Every such callback
is of this shape for some data choice function m. -/
def dataTick (m : z80 → Nat) : z80 → z80 :=
  fun s => { s with DATA := m s }

/-! ## Flag-mask lemmas for the ALU claims -/

/-- Only the bit-8 carry component of _ADD_FLAGS contributes to bit 0. -/
theorem ADD_FLAGS_and_CF (acc val res : Nat) :
    _ADD_FLAGS acc val res &&& Z80_CF = (res >>> 8) &&& Z80_CF := by
  unfold _ADD_FLAGS _SZYXCH _SZ Z80_CF Z80_SF Z80_ZF Z80_YF Z80_XF Z80_HF Z80_VF
  split <;> simp only [lor_and_distrib, and_mask_assoc] <;> norm_num

/-- The low bit of a right shift by 8 is nonzero exactly when bit 8 is set. -/
theorem shiftRight8_and_CF_iff (x : Nat) :
    ((x >>> 8) &&& Z80_CF ≠ 0) ↔ x.testBit 8 := by
  unfold Z80_CF
  rw [Nat.and_one_is_mod, Nat.testBit_to_div_mod, Nat.shiftRight_eq_div_pow]
  constructor
  · intro h
    exact decide_eq_true (by omega)
  · intro h
    have := of_decide_eq_true h
    omega

/-- On the documented flag bits (all but Y and X), _CP_FLAGS agrees with
_SUB_FLAGS at the same operands and raw result. -/
theorem CP_SUB_FLAGS_documented (acc val res : Nat) :
    _CP_FLAGS acc val res &&& 0xD7 = _SUB_FLAGS acc val res &&& 0xD7 := by
  unfold _CP_FLAGS _SUB_FLAGS _SZYXCH Z80_NF Z80_CF Z80_HF Z80_VF Z80_YF Z80_XF
  simp only [lor_and_distrib, and_mask_assoc,
    (by decide : ((32 : Nat) &&& 215 ||| 8 &&& 215) = 0),
    Nat.and_zero, Nat.zero_or, Nat.or_zero]

/-- The Y/X bits of _CP_FLAGS come from the operand val. -/
theorem CP_FLAGS_YX (acc val res : Nat) :
    _CP_FLAGS acc val res &&& 0x28 = val &&& 0x28 := by
  unfold _CP_FLAGS _SZ Z80_NF Z80_CF Z80_HF Z80_VF Z80_YF Z80_XF Z80_SF Z80_ZF
  split <;>
    simp only [lor_and_distrib, and_mask_assoc,
      (by decide : ((32 : Nat) &&& 40 ||| 8 &&& 40) = 40),
      (by decide : (2 : Nat) &&& 40 = 0), (by decide : (128 : Nat) &&& 40 = 0),
      (by decide : (64 : Nat) &&& 40 = 0), (by decide : (16 : Nat) &&& 40 = 0),
      (by decide : (4 : Nat) &&& 40 = 0), (by decide : (1 : Nat) &&& 40 = 0),
      Nat.and_zero, Nat.zero_or, Nat.or_zero]

/-- C1: for every accumulator value a, operand b and carry-in bit c, the
8-bit add-with-carry (_z80_adc8, and _z80_add8 with c = 0) stores
(a + b + c) mod 256 into A, and sets the carry flag Z80_CF exactly when
bit 8 of the unmasked sum a + b + c is set. -/
theorem z80_add8_adc8_correct (cpu : z80) (val : Nat) :
    (_z80_adc8 cpu val).A = (cpu.A + val + (cpu.F &&& Z80_CF)) % 256 ∧
    (((_z80_adc8 cpu val).F &&& Z80_CF ≠ 0) ↔
      (cpu.A + val + (cpu.F &&& Z80_CF)).testBit 8) ∧
    (_z80_add8 cpu val).A = (cpu.A + val) % 256 ∧
    (((_z80_add8 cpu val).F &&& Z80_CF ≠ 0) ↔ (cpu.A + val).testBit 8) := by
  refine ⟨rfl, ?_, rfl, ?_⟩
  · show (_ADD_FLAGS cpu.A val (cpu.A + val + (cpu.F &&& Z80_CF)) &&& Z80_CF ≠ 0) ↔ _
    rw [ADD_FLAGS_and_CF]
    exact shiftRight8_and_CF_iff _
  · show (_ADD_FLAGS cpu.A val (cpu.A + val) &&& Z80_CF ≠ 0) ↔ _
    rw [ADD_FLAGS_and_CF]
    exact shiftRight8_and_CF_iff _

/-- C5: _z80_cp8 leaves the accumulator unchanged, computes the documented
flag bits (S, Z, H, V, N, C) exactly as _z80_sub8 does for the same
operands, and takes the undocumented Y/X flag bits from the operand val
rather than from the result. -/
theorem z80_cp8_correct (cpu : z80) (val : Nat) :
    (_z80_cp8 cpu val).A = cpu.A ∧
    (_z80_cp8 cpu val).F &&& (Z80_SF ||| Z80_ZF ||| Z80_HF ||| Z80_VF ||| Z80_NF ||| Z80_CF)
      = (_z80_sub8 cpu val).F
          &&& (Z80_SF ||| Z80_ZF ||| Z80_HF ||| Z80_VF ||| Z80_NF ||| Z80_CF) ∧
    (_z80_cp8 cpu val).F &&& (Z80_YF ||| Z80_XF) = val &&& (Z80_YF ||| Z80_XF) := by
  have hmask : (Z80_SF ||| Z80_ZF ||| Z80_HF ||| Z80_VF ||| Z80_NF ||| Z80_CF) = 0xD7 := by
    decide
  have hyx : (Z80_YF ||| Z80_XF) = 0x28 := by decide
  refine ⟨rfl, ?_, ?_⟩
  · rw [hmask]
    exact CP_SUB_FLAGS_documented cpu.A val ((cpu.A + 65536 - val) % 65536)
  · rw [hyx]
    exact CP_FLAGS_YX cpu.A val ((cpu.A + 65536 - val) % 65536)

/-! ## C2 and C10: m6502 reset -/

/-- C2: for every tick callback, after m6502_reset the stack pointer is
0xFD, the flags byte is M6502_IF plus M6502_XF, and PC is the little-endian
16-bit value assembled from the data byte the callback returned for address
0xFFFC (low) and the data byte it returned for address 0xFFFD (high). -/
theorem m6502_reset_correct (tick : Nat → Nat) (c : m6502_t) :
    (m6502_reset tick c).S = 0xFD ∧
    (m6502_reset tick c).P = (M6502_IF ||| M6502_XF) ∧
    (m6502_reset tick c).PC =
      ((M6502_GET_DATA (tick (M6502_MAKE_PINS M6502_RW 0xFFFD 0x00))) <<< 8) |||
        M6502_GET_DATA (tick (M6502_MAKE_PINS M6502_RW 0xFFFC 0x00)) :=
  ⟨rfl, rfl, rfl⟩

/-- C10: m6502_reset leaves A, X, Y (and break_mask) unchanged and writes
only the flags byte, the stack pointer, the pin state, the irq_taken latch
and the program counter. -/
theorem m6502_reset_frame (tick : Nat → Nat) (c : m6502_t) :
    (m6502_reset tick c).A = c.A ∧
    (m6502_reset tick c).X = c.X ∧
    (m6502_reset tick c).Y = c.Y ∧
    (m6502_reset tick c).break_mask = c.break_mask ∧
    (m6502_reset tick c).irq_taken = false ∧
    (m6502_reset tick c).P = (M6502_IF ||| M6502_XF) ∧
    (m6502_reset tick c).S = 0xFD ∧
    (m6502_reset tick c).PINS = M6502_RW :=
  ⟨rfl, rfl, rfl, rfl, rfl, rfl, rfl, rfl⟩

/-! ## C6: pin packing round trip -/

/-- Masking a shifted byte with the data-bus field mask keeps it intact
when the value is a byte. -/
theorem shl16_and_ff0000 (d : Nat) (hd : d < 0x100) :
    (d <<< 16) &&& 0xFF0000 = d <<< 16 := by
  refine Nat.eq_of_testBit_eq fun i => ?_
  have hmask : (0xFF0000 : Nat) = (2 ^ 8 - 1) <<< 16 := by decide
  rw [hmask]
  simp only [Nat.testBit_and, Nat.testBit_shiftLeft, Nat.testBit_two_pow_sub_one]
  by_cases h16 : 16 ≤ i
  · by_cases h8 : i - 16 < 8
    · simp [h16, h8]
    · have hle : (256 : Nat) ≤ 2 ^ (i - 16) := by
        calc (256 : Nat) = 2 ^ 8 := by norm_num
        _ ≤ 2 ^ (i - 16) := Nat.pow_le_pow_right (by norm_num) (by omega)
      have hf : d.testBit (i - 16) = false :=
        Nat.testBit_eq_false_of_lt (lt_of_lt_of_le hd hle)
      simp [hf]
  · simp [h16]

/-- C6: extracting the address and the data field from a packed pin state
returns the original values, and packing does not disturb the control
bits (the M6502 control bits live in the mask RW|IRQ|NMI). -/
theorem m6502_pins_roundtrip (ctrl a d : Nat)
    (hctrl : ctrl &&& (M6502_RW ||| M6502_IRQ ||| M6502_NMI) = ctrl)
    (ha : a < 0x10000) (hd : d < 0x100) :
    M6502_GET_ADDR (M6502_MAKE_PINS ctrl a d) = a ∧
    M6502_GET_DATA (M6502_MAKE_PINS ctrl a d) = d ∧
    (M6502_MAKE_PINS ctrl a d) &&& (M6502_RW ||| M6502_IRQ ||| M6502_NMI) = ctrl := by
  have hcm : (M6502_RW ||| M6502_IRQ ||| M6502_NMI) = 0x7000000 := by decide
  rw [hcm] at hctrl
  have haf : a &&& 0xFFFF = a := by
    rw [(by decide : (0xFFFF : Nat) = 2 ^ 16 - 1), and_ones_eq_mod]
    exact Nat.mod_eq_of_lt ((by norm_num : (65536 : Nat) = 2 ^ 16) ▸ ha)
  have hc0 : ∀ m : Nat, 0x7000000 &&& m = 0 → ctrl &&& m = 0 := by
    intro m hm
    rw [← hctrl, and_mask_assoc, hm, Nat.and_zero]
  refine ⟨?_, ?_, ?_⟩
  · show (ctrl ||| ((d <<< 16) &&& 0xFF0000) ||| (a &&& 0xFFFF)) &&& 0xFFFF = a
    rw [lor_and_distrib, lor_and_distrib, hc0 0xFFFF (by decide),
      and_mask_assoc, (by decide : (0xFF0000 : Nat) &&& 0xFFFF = 0), Nat.and_zero,
      and_mask_assoc, (by decide : (0xFFFF : Nat) &&& 0xFFFF = 0xFFFF), haf,
      Nat.zero_or, Nat.zero_or]
  · show ((ctrl ||| ((d <<< 16) &&& 0xFF0000) ||| (a &&& 0xFFFF)) &&& 0xFF0000) >>> 16 = d
    rw [lor_and_distrib, lor_and_distrib, hc0 0xFF0000 (by decide),
      and_mask_assoc, (by decide : (0xFF0000 : Nat) &&& 0xFF0000 = 0xFF0000),
      and_mask_assoc, (by decide : (0xFFFF : Nat) &&& 0xFF0000 = 0), Nat.and_zero,
      Nat.zero_or, Nat.or_zero, shl16_and_ff0000 d hd,
      Nat.shiftLeft_eq, Nat.shiftRight_eq_div_pow,
      Nat.mul_div_cancel d (by norm_num : (0 : Nat) < 2 ^ 16)]
  · show (ctrl ||| ((d <<< 16) &&& 0xFF0000) ||| (a &&& 0xFFFF)) &&& 0x7000000 = ctrl
    rw [lor_and_distrib, lor_and_distrib, hctrl,
      and_mask_assoc, (by decide : (0xFF0000 : Nat) &&& 0x7000000 = 0), Nat.and_zero,
      and_mask_assoc, (by decide : (0xFFFF : Nat) &&& 0x7000000 = 0), Nat.and_zero,
      Nat.or_zero, Nat.or_zero]

/-- Witness for C6 at control bits RW, address 0x1234, data 0x56. -/
theorem m6502_pins_roundtrip_witness :
    (M6502_RW &&& (M6502_RW ||| M6502_IRQ ||| M6502_NMI) = M6502_RW ∧
      0x1234 < 0x10000 ∧ 0x56 < 0x100) ∧
    (M6502_GET_ADDR (M6502_MAKE_PINS M6502_RW 0x1234 0x56) = 0x1234 ∧
      M6502_GET_DATA (M6502_MAKE_PINS M6502_RW 0x1234 0x56) = 0x56 ∧
      (M6502_MAKE_PINS M6502_RW 0x1234 0x56) &&& (M6502_RW ||| M6502_IRQ ||| M6502_NMI)
        = M6502_RW) :=
  ⟨⟨by decide, by decide, by decide⟩,
    m6502_pins_roundtrip M6502_RW 0x1234 0x56 (by decide) (by decide) (by decide)⟩

/-! ## C3: z80_run is an unimplemented stub -/

/-- C3 divergence witness: with a 4-cycle budget, z80_run executes nothing
and returns 0, not a cycle count of at least 4 as the run contract states. -/
theorem z80_run_stub_returns_zero :
    z80_run (dataTick fun _ => 0x00) z80_init 4 = (z80_init, 0) ∧
    ¬ (4 ≤ (z80_run (dataTick fun _ => 0x00) z80_init 4).2) :=
  ⟨rfl, by decide⟩

/-! ## One tick under a contract-respecting callback -/

/-- A _TICK through a dataTick callback stores the byte chosen by m and
increments both cpu->ticks and the invocation counter. -/
theorem TICK_dataTick (m : z80 → Nat) (s1 : z80) (n : Nat) :
    _TICK (dataTick m) (s1, n) =
      ({ s1 with DATA := m s1, ticks := s1.ticks + 1 }, n + 1) := rfl

/-- Opcode 0x00 (NOP: x=0, y=0, z=0) leaves the state untouched and makes
no bus transaction in _z80_op. -/
theorem op_nop (t : z80 → z80) (sn : z80 × Nat) (h : sn.1.DATA = 0x00) :
    _z80_op t sn = sn := by
  simp only [_z80_op, h,
    (by decide : (0 : Nat) >>> 6 = 0), (by decide : ((0 : Nat) >>> 3) &&& 7 = 0),
    (by decide : (0 : Nat) &&& 7 = 0),
    eq_false (by decide : ¬ ((0 : Nat) = 1)), eq_false (by decide : ¬ ((0 : Nat) = 2)),
    eq_false (by decide : ¬ ((0 : Nat) = 6)),
    if_true, if_false]

/-! ## C4: a NOP step -/

/-- C4 (amended): a z80_step that fetches opcode 0x00 (NOP) from a
contract-respecting tick callback consumes exactly 4 cycles with exactly 4
callback invocations, advances PC by one (mod 2^16), updates the low 7 bits
of the refresh counter R modulo 128 keeping bit 7 (so R becomes R+1 except
when the low 7 bits of R are all ones), and leaves every other register
unchanged. -/
theorem z80_step_nop (m : z80 → Nat) (s : z80)
    (h : (_z80_fetch (dataTick m) ({ s with ticks := 0 }, 0)).1.DATA = 0x00) :
    (z80_step (dataTick m) s).1.ticks = 4 ∧
    (z80_step (dataTick m) s).2 = 4 ∧
    (z80_step (dataTick m) s).1.PC = (s.PC + 1) % 65536 ∧
    (z80_step (dataTick m) s).1.R = (s.R &&& 0x80) ||| ((s.R + 1) &&& 0x7F) ∧
    (z80_step (dataTick m) s).1.A = s.A ∧
    (z80_step (dataTick m) s).1.F = s.F ∧
    (z80_step (dataTick m) s).1.B = s.B ∧
    (z80_step (dataTick m) s).1.C = s.C ∧
    (z80_step (dataTick m) s).1.D = s.D ∧
    (z80_step (dataTick m) s).1.E = s.E ∧
    (z80_step (dataTick m) s).1.H = s.H ∧
    (z80_step (dataTick m) s).1.L = s.L ∧
    (z80_step (dataTick m) s).1.BC_ = s.BC_ ∧
    (z80_step (dataTick m) s).1.DE_ = s.DE_ ∧
    (z80_step (dataTick m) s).1.HL_ = s.HL_ ∧
    (z80_step (dataTick m) s).1.AF_ = s.AF_ ∧
    (z80_step (dataTick m) s).1.IX = s.IX ∧
    (z80_step (dataTick m) s).1.IY = s.IY ∧
    (z80_step (dataTick m) s).1.I = s.I ∧
    (z80_step (dataTick m) s).1.SP = s.SP ∧
    (z80_step (dataTick m) s).1.WZ = s.WZ ∧
    (z80_step (dataTick m) s).1.WZ_ = s.WZ_ ∧
    (z80_step (dataTick m) s).1.im = s.im ∧
    (z80_step (dataTick m) s).1.imm1 = s.imm1 ∧
    (z80_step (dataTick m) s).1.imm2 = s.imm2 := by
  rw [z80_step, op_nop (dataTick m) _ h]
  simp only [_z80_fetch, TICK_dataTick]
  norm_num

/-- C4 counterexample to the claim as stated: at R = 0x7F the NOP step does
not increment R by one (not even modulo 256); the fetch wraps only the low
7 bits, producing 0x00 instead of 0x80. -/
theorem z80_step_nop_R_wrap :
    (z80_step (dataTick fun _ => 0x00) { z80_init with R := 0x7F }).1.R ≠
      (({ z80_init with R := 0x7F } : z80).R + 1) % 256 := by decide

/-- Witness for the amended C4 at the all-zero initial state. -/
theorem z80_step_nop_witness :
    ((_z80_fetch (dataTick fun _ => 0x00) ({ z80_init with ticks := 0 }, 0)).1.DATA = 0x00) ∧
    ((z80_step (dataTick fun _ => 0x00) z80_init).1.ticks = 4 ∧
      (z80_step (dataTick fun _ => 0x00) z80_init).2 = 4 ∧
      (z80_step (dataTick fun _ => 0x00) z80_init).1.PC = (z80_init.PC + 1) % 65536 ∧
      (z80_step (dataTick fun _ => 0x00) z80_init).1.R =
        (z80_init.R &&& 0x80) ||| ((z80_init.R + 1) &&& 0x7F) ∧
      (z80_step (dataTick fun _ => 0x00) z80_init).1.A = z80_init.A ∧
      (z80_step (dataTick fun _ => 0x00) z80_init).1.F = z80_init.F ∧
      (z80_step (dataTick fun _ => 0x00) z80_init).1.B = z80_init.B ∧
      (z80_step (dataTick fun _ => 0x00) z80_init).1.C = z80_init.C ∧
      (z80_step (dataTick fun _ => 0x00) z80_init).1.D = z80_init.D ∧
      (z80_step (dataTick fun _ => 0x00) z80_init).1.E = z80_init.E ∧
      (z80_step (dataTick fun _ => 0x00) z80_init).1.H = z80_init.H ∧
      (z80_step (dataTick fun _ => 0x00) z80_init).1.L = z80_init.L ∧
      (z80_step (dataTick fun _ => 0x00) z80_init).1.BC_ = z80_init.BC_ ∧
      (z80_step (dataTick fun _ => 0x00) z80_init).1.DE_ = z80_init.DE_ ∧
      (z80_step (dataTick fun _ => 0x00) z80_init).1.HL_ = z80_init.HL_ ∧
      (z80_step (dataTick fun _ => 0x00) z80_init).1.AF_ = z80_init.AF_ ∧
      (z80_step (dataTick fun _ => 0x00) z80_init).1.IX = z80_init.IX ∧
      (z80_step (dataTick fun _ => 0x00) z80_init).1.IY = z80_init.IY ∧
      (z80_step (dataTick fun _ => 0x00) z80_init).1.I = z80_init.I ∧
      (z80_step (dataTick fun _ => 0x00) z80_init).1.SP = z80_init.SP ∧
      (z80_step (dataTick fun _ => 0x00) z80_init).1.WZ = z80_init.WZ ∧
      (z80_step (dataTick fun _ => 0x00) z80_init).1.WZ_ = z80_init.WZ_ ∧
      (z80_step (dataTick fun _ => 0x00) z80_init).1.im = z80_init.im ∧
      (z80_step (dataTick fun _ => 0x00) z80_init).1.imm1 = z80_init.imm1 ∧
      (z80_step (dataTick fun _ => 0x00) z80_init).1.imm2 = z80_init.imm2) :=
  ⟨by decide, z80_step_nop (fun _ => 0x00) z80_init (by decide)⟩

/-! ## C8: LD B,C (opcode 0x41) -/

/-- Opcode 0x41 (x=1, y=0, z=1) dispatches to the register-to-register load
r8[y xor 1] := r8[z xor 1], i.e. B := C, with no bus transaction. -/
theorem op_ld_b_c (t : z80 → z80) (sn : z80 × Nat) (h : sn.1.DATA = 0x41) :
    _z80_op t sn = (z80.setR8 sn.1 1 (sn.1.r8 0), sn.2) := by
  simp only [_z80_op, h,
    (by decide : (0x41 : Nat) >>> 6 = 1), (by decide : ((0x41 : Nat) >>> 3) &&& 7 = 0),
    (by decide : (0x41 : Nat) &&& 7 = 1),
    (by decide : (0 : Nat) ^^^ 1 = 1), (by decide : (1 : Nat) ^^^ 1 = 0),
    eq_false (by decide : ¬ ((0 : Nat) = 6)), eq_false (by decide : ¬ ((1 : Nat) = 6)),
    if_true, if_false]

/-- C8: executing opcode 0x41 (LD B,C: x=1, y=0, z=1, through the
bit-0-flipped r8 index mapping) copies C into B, leaves C unchanged, and
consumes exactly the 4-cycle fetch with no further bus transaction (the
callback is invoked exactly 4 times). -/
theorem z80_step_ld_b_c (m : z80 → Nat) (s : z80)
    (h : (_z80_fetch (dataTick m) ({ s with ticks := 0 }, 0)).1.DATA = 0x41) :
    (z80_step (dataTick m) s).1.B = s.C ∧
    (z80_step (dataTick m) s).1.C = s.C ∧
    (z80_step (dataTick m) s).1.ticks = 4 ∧
    (z80_step (dataTick m) s).2 = 4 := by
  rw [z80_step, op_ld_b_c (dataTick m) _ h]
  simp only [z80.setR8, z80.r8, _z80_fetch, TICK_dataTick]
  exact ⟨trivial, trivial, trivial, trivial⟩

/-- Witness for C8 with C = 5, B = 9 before the step. -/
theorem z80_step_ld_b_c_witness :
    ((_z80_fetch (dataTick fun _ => 0x41)
        ({ ({ z80_init with C := 5, B := 9 } : z80) with ticks := 0 }, 0)).1.DATA = 0x41) ∧
    ((z80_step (dataTick fun _ => 0x41) ({ z80_init with C := 5, B := 9 } : z80)).1.B
        = ({ z80_init with C := 5, B := 9 } : z80).C ∧
      (z80_step (dataTick fun _ => 0x41) ({ z80_init with C := 5, B := 9 } : z80)).1.C
        = ({ z80_init with C := 5, B := 9 } : z80).C ∧
      (z80_step (dataTick fun _ => 0x41) ({ z80_init with C := 5, B := 9 } : z80)).1.ticks = 4 ∧
      (z80_step (dataTick fun _ => 0x41) ({ z80_init with C := 5, B := 9 } : z80)).2 = 4) :=
  ⟨by decide, z80_step_ld_b_c (fun _ => 0x41) { z80_init with C := 5, B := 9 } (by decide)⟩

/-! ## C9: opcode 0x76 is HALT, not LD (HL),(HL) -/

/-- Opcode 0x76 (x=1, y=6, z=6) is caught by the HALT special case before
the general LD (HL),r handling: _z80_op dispatches to _z80_halt and issues
no further bus transaction. -/
theorem op_halt (t : z80 → z80) (sn : z80 × Nat) (h : sn.1.DATA = 0x76) :
    _z80_op t sn = (_z80_halt sn.1, sn.2) := by
  simp only [_z80_op, h,
    (by decide : (0x76 : Nat) >>> 6 = 1), (by decide : ((0x76 : Nat) >>> 3) &&& 7 = 6),
    (by decide : (0x76 : Nat) &&& 7 = 6), if_true]

/-- C9: a step that fetches opcode 0x76 performs the halt behavior on the
post-fetch state, makes exactly the 4 fetch callback invocations (so no
memory-write machine cycle happens), and never raises the WR pin (the WR
bit of CTRL is exactly what it was before the step). -/
theorem z80_step_halt_special (m : z80 → Nat) (s : z80)
    (h : (_z80_fetch (dataTick m) ({ s with ticks := 0 }, 0)).1.DATA = 0x76) :
    (z80_step (dataTick m) s).1 =
      _z80_halt (_z80_fetch (dataTick m) ({ s with ticks := 0 }, 0)).1 ∧
    (z80_step (dataTick m) s).2 = 4 ∧
    (z80_step (dataTick m) s).1.ticks = 4 ∧
    (z80_step (dataTick m) s).1.CTRL &&& Z80_WR = s.CTRL &&& Z80_WR := by
  rw [z80_step, op_halt (dataTick m) _ h]
  refine ⟨rfl, ?_, ?_, ?_⟩
  · simp only [_z80_fetch, TICK_dataTick]
  · simp only [_z80_halt, _z80_fetch, TICK_dataTick]
  · simp only [_z80_halt, _z80_fetch, TICK_dataTick, ctrlOff,
      Z80_M1, Z80_MREQ, Z80_RD, Z80_RFSH, Z80_WR,
      (by decide : ((1 : Nat) ||| 2 ||| 8) = 11), (by decide : ((2 : Nat) ||| 8) = 10),
      (by decide : ((32 : Nat) ||| 2) = 34),
      (by decide : (65535 : Nat) ^^^ 11 = 65524), (by decide : (65535 : Nat) ^^^ 34 = 65501),
      lor_and_distrib, and_mask_assoc,
      (by decide : (65501 : Nat) &&& 16 = 16), (by decide : (65524 : Nat) &&& 16 = 16),
      (by decide : (32 : Nat) &&& 16 = 0), (by decide : (2 : Nat) &&& 16 = 0),
      (by decide : (1 : Nat) &&& 16 = 0), (by decide : (10 : Nat) &&& 16 = 0),
      Nat.and_zero, Nat.zero_or, Nat.or_zero]

/-- Witness for C9 at the all-zero initial state. -/
theorem z80_step_halt_special_witness :
    ((_z80_fetch (dataTick fun _ => 0x76) ({ z80_init with ticks := 0 }, 0)).1.DATA = 0x76) ∧
    ((z80_step (dataTick fun _ => 0x76) z80_init).1 =
        _z80_halt (_z80_fetch (dataTick fun _ => 0x76) ({ z80_init with ticks := 0 }, 0)).1 ∧
      (z80_step (dataTick fun _ => 0x76) z80_init).2 = 4 ∧
      (z80_step (dataTick fun _ => 0x76) z80_init).1.ticks = 4 ∧
      (z80_step (dataTick fun _ => 0x76) z80_init).1.CTRL &&& Z80_WR
        = z80_init.CTRL &&& Z80_WR) :=
  ⟨by decide, z80_step_halt_special (fun _ => 0x76) z80_init (by decide)⟩

/-! ## C7: the returned cycle count equals the number of callback invocations -/

/-- For a tick callback that leaves cpu->ticks alone (the bus contract: the
callback only does bus work), one _TICK adds one to cpu->ticks. -/
theorem TICK_ticks_fst (t : z80 → z80) (hT : ∀ u, (t u).ticks = u.ticks)
    (p : z80 × Nat) : (_TICK t p).1.ticks = p.1.ticks + 1 := by
  simp [_TICK, hT]

/-- One _TICK always adds one to the invocation counter. -/
theorem TICK_ticks_snd (t : z80 → z80) (p : z80 × Nat) :
    (_TICK t p).2 = p.2 + 1 := rfl

/-- A fetch cycle adds 4 to cpu->ticks. -/
theorem fetch_ticks_fst (t : z80 → z80) (hT : ∀ u, (t u).ticks = u.ticks)
    (p : z80 × Nat) : (_z80_fetch t p).1.ticks = p.1.ticks + 4 := by
  simp only [_z80_fetch, TICK_ticks_fst t hT]

/-- A fetch cycle makes 4 callback invocations. -/
theorem fetch_ticks_snd (t : z80 → z80) (p : z80 × Nat) :
    (_z80_fetch t p).2 = p.2 + 4 := by
  simp only [_z80_fetch, TICK_ticks_snd t]

/-- A memory read cycle adds 3 to cpu->ticks. -/
theorem read_ticks_fst (t : z80 → z80) (hT : ∀ u, (t u).ticks = u.ticks)
    (addr : Nat) (p : z80 × Nat) :
    (_z80_read t addr p).1.ticks = p.1.ticks + 3 := by
  simp only [_z80_read, TICK_ticks_fst t hT]

/-- A memory read cycle makes 3 callback invocations. -/
theorem read_ticks_snd (t : z80 → z80) (addr : Nat) (p : z80 × Nat) :
    (_z80_read t addr p).2 = p.2 + 3 := by
  simp only [_z80_read, TICK_ticks_snd t]

/-- A memory write cycle adds 3 to cpu->ticks. -/
theorem write_ticks_fst (t : z80 → z80) (hT : ∀ u, (t u).ticks = u.ticks)
    (addr data : Nat) (p : z80 × Nat) :
    (_z80_write t addr data p).1.ticks = p.1.ticks + 3 := by
  simp only [_z80_write, TICK_ticks_fst t hT]

/-- A memory write cycle makes 3 callback invocations. -/
theorem write_ticks_snd (t : z80 → z80) (addr data : Nat) (p : z80 × Nat) :
    (_z80_write t addr data p).2 = p.2 + 3 := by
  simp only [_z80_write, TICK_ticks_snd t]

/-- Register stores do not touch cpu->ticks. -/
theorem setR8_ticks (x : z80) (i v : Nat) : (z80.setR8 x i v).ticks = x.ticks := by
  unfold z80.setR8
  split <;> rfl

/-- Whatever _z80_op dispatches to, cpu->ticks and the invocation counter
advance by the same amount. -/
theorem op_ticks (t : z80 → z80) (hT : ∀ u, (t u).ticks = u.ticks) (sn : z80 × Nat) :
    (_z80_op t sn).1.ticks + sn.2 = (_z80_op t sn).2 + sn.1.ticks := by
  simp only [_z80_op]
  split
  · split
    · split
      · simp only [_z80_halt]
        try dsimp only
        omega
      · simp only [write_ticks_fst t hT, write_ticks_snd t]
        try dsimp only
        omega
    · split
      · simp only [setR8_ticks, read_ticks_fst t hT, read_ticks_snd t]
        try dsimp only
        omega
      · simp only [setR8_ticks]
        try dsimp only
        omega
  · split
    · try dsimp only
      omega
    · split
      · split
        · split
          · dsimp only
            omega
          · simp only [setR8_ticks, read_ticks_fst t hT, read_ticks_snd t]
            try dsimp only
            omega
        · dsimp only
          omega
      · try dsimp only
        omega

/-- C7: the cycle count z80_step returns equals exactly the number of
tick-callback invocations made during the step, for every callback that
leaves cpu->ticks alone. -/
theorem z80_step_tick_count (t : z80 → z80) (s : z80)
    (hT : ∀ u, (t u).ticks = u.ticks) :
    (z80_step t s).1.ticks = (z80_step t s).2 := by
  have hop := op_ticks t hT (_z80_fetch t ({ s with ticks := 0 }, 0))
  have hf1 := fetch_ticks_fst t hT ({ s with ticks := 0 }, 0)
  have hf2 := fetch_ticks_snd t ({ s with ticks := 0 }, 0)
  dsimp only at hf1 hf2
  rw [z80_step]
  omega

/-- Witness for C7: a data-only callback trivially preserves cpu->ticks. -/
theorem z80_step_tick_count_witness :
    (∀ u : z80, ((dataTick fun _ => 0x00) u).ticks = u.ticks) ∧
    (z80_step (dataTick fun _ => 0x00) z80_init).1.ticks =
      (z80_step (dataTick fun _ => 0x00) z80_init).2 :=
  ⟨fun _ => rfl, z80_step_tick_count (dataTick fun _ => 0x00) z80_init (fun _ => rfl)⟩
